import Mathlib

set_option linter.unusedVariables false

/-! Shallow embedding of `src/AWS_SG_MGR.py` (class `StorageGatewayManager`).

The remote AWS Storage Gateway API is modelled as a record of pure
functions (`Client`): each endpoint either succeeds with the structured
response the code reads, or fails with a `ClientError` (carrying the
message string).  Logging calls are modelled by an explicit list of
`LogMsg` values returned alongside each function's result, in emission
order.  Python dicts read with `.get(key, default)` are modelled as
structures with `Option` fields. -/

/-- A `botocore` `ClientError`, identified by its message. -/
abbrev ClientError := String

/-- Python's `u.startswith('@')` (line 103): for the one-character prefix
`'@'` this is exactly "the first character of `u` is `'@'`". -/
def startswith_at (u : String) : Bool :=
  match u.data with
  | [] => false
  | c :: _ => c = '@'

/-- One element of a `list_gateways` page's `Gateways` list; the code only
reads the `GatewayARN` key. -/
structure GatewayRef where
  GatewayARN : String
deriving DecidableEq, Repr

/-- One page from the `list_gateways` paginator: a dict whose `Gateways`
key may be absent (the code reads `page.get('Gateways', [])`). -/
structure GatewayListPage where
  Gateways : Option (List GatewayRef)
deriving DecidableEq, Repr

/-- Response dict of `describe_gateway_information`; every key is read
with `.get` and a default. -/
structure GatewayInformation where
  GatewayName : Option String
  GatewayId : Option String
  GatewayState : Option String
  GatewayType : Option String
deriving DecidableEq, Repr

/-- The record built per gateway by `get_detailed_status` (lines 33-39). -/
structure GatewaySummary where
  Name : String
  ID : String
  Status : String
  «Type» : String
  ARN : String
deriving DecidableEq, Repr

/-- A log line, identified by call site and interpolated data. -/
inductive LogMsg where
  | errorFailedToListGateways (e : ClientError)
  | warnCouldNotDescribeGateway (arn : String) (e : ClientError)
  | errorFailedToDescribeShares (share_type : String) (e : ClientError)
  | infoProcessingShares (name : String)
  | errorGatheringShareData (name : String) (e : ClientError)
  | infoSavedReport (filename : String)
deriving DecidableEq, Repr

/-- One element of a `list_file_shares` page's `FileShareInfoList`; the
code indexes the `FileShareARN` and `FileShareType` keys directly. -/
structure FileShareInfo where
  FileShareARN : String
  FileShareType : String
deriving DecidableEq, Repr

/-- One page from the `list_file_shares` paginator (read with
`page.get('FileShareInfoList', [])`). -/
structure FileSharesPage where
  FileShareInfoList : Option (List FileShareInfo)
deriving DecidableEq, Repr

/-- A share-detail dict as returned inside `NFSFileShareInfoList` /
`SMBFileShareInfoList`; every key the code touches is read with `.get`,
so each is optional. -/
structure ShareDetail where
  FileShareId : Option String
  Path : Option String
  LocationARN : Option String
  ClientList : Option (List String)
  ValidUserList : Option (List String)
  AdminUserList : Option (List String)
  FileShareStatus : Option String
  SMBACLEnabled : Option Bool
deriving DecidableEq, Repr

/-- Response dict of `describe_nfs_file_shares`. -/
structure NFSDescribeResponse where
  NFSFileShareInfoList : Option (List ShareDetail)
deriving DecidableEq, Repr

/-- Response dict of `describe_smb_file_shares`. -/
structure SMBDescribeResponse where
  SMBFileShareInfoList : Option (List ShareDetail)
deriving DecidableEq, Repr

/-- The remote API as seen through `self.client`: one field per endpoint
the script calls.  A paginated endpoint is modelled by the full sequence
of pages it would yield (an error anywhere during pagination is the
`Except.error` case, matching the `try` blocks that wrap whole loops). -/
structure Client where
  list_gateways_pages : Except ClientError (List GatewayListPage)
  describe_gateway_information : String → Except ClientError GatewayInformation
  list_file_shares_pages : String → Except ClientError (List FileSharesPage)
  describe_nfs_file_shares : List String → Except ClientError NFSDescribeResponse
  describe_smb_file_shares : List String → Except ClientError SMBDescribeResponse

/-- Lines 14-24: `list_all_gateways` concatenates every page's
`Gateways` items; on `ClientError` it logs and returns `[]`. -/
def list_all_gateways (c : Client) : List GatewayRef × List LogMsg :=
  match c.list_gateways_pages with
  | .ok pages => ((pages.map (fun page => page.Gateways.getD [])).flatten, [])
  | .error e => ([], [.errorFailedToListGateways e])

/-- Lines 33-39: the summary dict built from one
`describe_gateway_information` response, with the `.get` defaults. -/
def summaryOf (info : GatewayInformation) (arn : String) : GatewaySummary :=
  { Name := info.GatewayName.getD "N/A"
    ID := info.GatewayId.getD "N/A"
    Status := info.GatewayState.getD "UNKNOWN"
    «Type» := info.GatewayType.getD "N/A"
    ARN := arn }

/-- Lines 30-41: the `for gw in gateways` loop of `get_detailed_status`:
a successful describe appends a summary, a `ClientError` logs a warning
and skips the gateway. -/
def describeLoop (c : Client) : List GatewayRef → List GatewaySummary × List LogMsg
  | [] => ([], [])
  | gw :: rest =>
    let tl := describeLoop c rest
    match c.describe_gateway_information gw.GatewayARN with
    | .ok info => (summaryOf info gw.GatewayARN :: tl.1, tl.2)
    | .error e => (tl.1, .warnCouldNotDescribeGateway gw.GatewayARN e :: tl.2)

/-- Lines 26-42: `get_detailed_status` lists all gateways, then describes
each one in order. -/
def get_detailed_status (c : Client) : List GatewaySummary × List LogMsg :=
  let l := list_all_gateways c
  let d := describeLoop c l.1
  (d.1, l.2 ++ d.2)

/-- Lines 48-49: the batch slices `share_arns[i:i+10]` for
`i = 0, 10, 20, ...`: the empty list yields no batch, a list of ten or
more yields its first ten elements and recurses on the rest, and a
shorter non-empty list is a single final batch. -/
def chunks10 {α : Type} : List α → List (List α)
  | [] => []
  | x1 :: x2 :: x3 :: x4 :: x5 :: x6 :: x7 :: x8 :: x9 :: x10 :: rest =>
    [x1, x2, x3, x4, x5, x6, x7, x8, x9, x10] :: chunks10 rest
  | xs => [xs]

/-- Lines 50-58: one iteration of the batch loop: issue the describe call
for this batch (NFS endpoint when `share_type == 'NFS'`, SMB endpoint
otherwise), extend with the response's info list on success, log and
contribute nothing on `ClientError`. -/
def describeBatch (c : Client) (share_type : String) (batch : List String) :
    List ShareDetail × List LogMsg :=
  if share_type = "NFS" then
    match c.describe_nfs_file_shares batch with
    | .ok r => (r.NFSFileShareInfoList.getD [], [])
    | .error e => ([], [.errorFailedToDescribeShares share_type e])
  else
    match c.describe_smb_file_shares batch with
    | .ok r => (r.SMBFileShareInfoList.getD [], [])
    | .error e => ([], [.errorFailedToDescribeShares share_type e])

/-- The batch loop of `_get_share_details`, iterated over the list of
batches, concatenating details and logs in order. -/
def batchLoop (c : Client) (share_type : String) :
    List (List String) → List ShareDetail × List LogMsg
  | [] => ([], [])
  | b :: bs =>
    let r := describeBatch c share_type b
    let tl := batchLoop c share_type bs
    (r.1 ++ tl.1, r.2 ++ tl.2)

/-- Lines 44-59: `_get_share_details` batches the ARNs in groups of 10
and fetches each batch. -/
def _get_share_details (c : Client) (share_arns : List String) (share_type : String) :
    List ShareDetail × List LogMsg :=
  batchLoop c share_type (chunks10 share_arns)

/-- Lines 86-94: the record built for one NFS share detail. -/
structure NFSShareRecord where
  ShareID : Option String
  Path : Option String
  Bucket : Option String
  AllowedClients : List String
  Status : Option String
deriving DecidableEq, Repr

/-- Lines 96-107: the record built for one SMB share detail. -/
structure SMBShareRecord where
  ShareID : Option String
  Path : Option String
  Bucket : Option String
  AD_AllowedUsers : List String
  AD_AllowedGroups : List String
  AD_AdminUsers : List String
  Status : Option String
  SMB_ACL_Enabled : Bool
deriving DecidableEq, Repr

/-- A flattened share record appended to `full_details`; the `'Type'`
key of the Python dict (`'NFS'` or `'SMB'`) is the constructor. -/
inductive ShareRecord where
  | nfs (r : NFSShareRecord)
  | smb (r : SMBShareRecord)
deriving DecidableEq, Repr

/-- Lines 87-94: the NFS record fields, with the `.get` defaults. -/
def nfsRecordOf (share : ShareDetail) : NFSShareRecord :=
  { ShareID := share.FileShareId
    Path := share.Path
    Bucket := share.LocationARN
    AllowedClients := share.ClientList.getD []
    Status := share.FileShareStatus }

/-- Lines 97-107: the SMB record fields: `AD_AllowedUsers` is the raw
`ValidUserList`, `AD_AllowedGroups` keeps exactly the entries starting
with `'@'`. -/
def smbRecordOf (share : ShareDetail) : SMBShareRecord :=
  { ShareID := share.FileShareId
    Path := share.Path
    Bucket := share.LocationARN
    AD_AllowedUsers := share.ValidUserList.getD []
    AD_AllowedGroups := (share.ValidUserList.getD []).filter startswith_at
    AD_AdminUsers := share.AdminUserList.getD []
    Status := share.FileShareStatus
    SMB_ACL_Enabled := share.SMBACLEnabled.getD false }

/-- Lines 109-112: the value stored under `share_report[gw['Name']]`. -/
structure ReportEntry where
  GatewayID : String
  Shares : List ShareRecord
deriving DecidableEq, Repr

/-- `share_report` is a Python dict keyed by gateway name; modelled as an
association list in insertion order. -/
abbrev Report := List (String × ReportEntry)

/-- Python dict assignment `m[k] = v`: replace the value in place when
the key exists (keeping its position), otherwise append. -/
def dictSet (m : Report) (k : String) (v : ReportEntry) : Report :=
  if m.any (fun p => p.1 = k) then
    m.map (fun p => if p.1 = k then (k, v) else p)
  else
    m ++ [(k, v)]

/-- Lines 72-107 for a single gateway: drain the `list_file_shares`
paginator, split the ARNs by `FileShareType`, batch-describe each group,
and flatten into records (NFS records first, then SMB, in fetched
order).  A `ClientError` raised by the pagination is caught by the
`except` at line 114: the gateway yields no entry and an error log. -/
def gatewayShares (c : Client) (gw : GatewaySummary) :
    Option (List ShareRecord) × List LogMsg :=
  match c.list_file_shares_pages gw.ARN with
  | .error e => (none, [.errorGatheringShareData gw.Name e])
  | .ok pages =>
    let shares_info := (pages.map (fun page => page.FileShareInfoList.getD [])).flatten
    let nfs_arns := (shares_info.filter (fun s => s.FileShareType = "NFS")).map
      (fun s => s.FileShareARN)
    let smb_arns := (shares_info.filter (fun s => s.FileShareType = "SMB")).map
      (fun s => s.FileShareARN)
    let nfs := _get_share_details c nfs_arns "NFS"
    let smb := _get_share_details c smb_arns "SMB"
    (some (nfs.1.map (fun s => ShareRecord.nfs (nfsRecordOf s)) ++
           smb.1.map (fun s => ShareRecord.smb (smbRecordOf s))),
     nfs.2 ++ smb.2)

/-- Lines 69-115: the `for gw in gateways` loop of
`export_shares_to_json`, threading the `share_report` dict.  Gateways
whose `Type` is not in `['FILE_S3', 'FILE_FSX_SMB']` are skipped
silently; eligible ones log the info line, then either store their entry
or (on a pagination failure) log the error. -/
def reportLoop (c : Client) (report : Report) :
    List GatewaySummary → Report × List LogMsg
  | [] => (report, [])
  | gw :: rest =>
    if gw.«Type» ∈ ["FILE_S3", "FILE_FSX_SMB"] then
      let g := gatewayShares c gw
      let report' := match g.1 with
        | some shares => dictSet report gw.Name ⟨gw.ID, shares⟩
        | none => report
      let tl := reportLoop c report' rest
      (tl.1, (.infoProcessingShares gw.Name :: g.2) ++ tl.2)
    else
      reportLoop c report rest

/-- Lines 66-115: the share-gathering phase of `export_shares_to_json`:
the report as assembled right before the file write, with all logs
emitted up to that point. -/
def gatherPhase (c : Client) : Report × List LogMsg :=
  let g := get_detailed_status c
  let r := reportLoop c [] g.1
  (r.1, g.2 ++ r.2)

/-- Lines 61-119: `export_shares_to_json`.  The file system is modelled
by `canOpen`: when `open(filename, 'w')` succeeds the full report is
dumped and the final info line logged; when it raises, the `IOError`
propagates to the caller uncaught (the `with open` at line 117 is not
inside any `try`), so the result is `Except.error` and no further log is
emitted.  The `Except.ok` value is the report written to `filename`. -/
def export_shares_to_json (c : Client) (canOpen : String → Bool)
    (filename : String) : List LogMsg × Except Unit Report :=
  let g := gatherPhase c
  if canOpen filename then
    (g.2 ++ [.infoSavedReport filename], .ok g.1)
  else
    (g.2, .error ())

/-- Whether `describe_gateway_information` succeeds for a gateway
reference (the `try` at lines 31-41 takes the success branch). -/
def describeOk (c : Client) (r : GatewayRef) : Bool :=
  match c.describe_gateway_information r.GatewayARN with
  | .ok _ => true
  | .error _ => false

/-! Concrete fixtures used to instantiate the theorems below on closed
inputs. -/

/-- A client whose every endpoint fails; fields are overridden per
fixture. -/
def baseClient : Client :=
  { list_gateways_pages := .error "unused"
    describe_gateway_information := fun _ => .error "unused"
    list_file_shares_pages := fun _ => .error "unused"
    describe_nfs_file_shares := fun _ => .error "unused"
    describe_smb_file_shares := fun _ => .error "unused" }

/-- A share detail with the `ValidUserList` from the spec's example. -/
def sdExample : ShareDetail :=
  { FileShareId := some "share-1"
    Path := some "/data"
    LocationARN := some "arn:aws:s3:::bucket"
    ClientList := none
    ValidUserList := some ["alice", "@engineering", "bob"]
    AdminUserList := none
    FileShareStatus := some "AVAILABLE"
    SMBACLEnabled := some true }

/-- Three pages for the `list_gateways` paginator, one lacking the
`Gateways` key. -/
def pagesFix : List GatewayListPage :=
  [⟨some [⟨"arn-1"⟩, ⟨"arn-2"⟩]⟩, ⟨none⟩, ⟨some [⟨"arn-3"⟩]⟩]

/-- Client for the pagination fixture. -/
def clientPages : Client := { baseClient with list_gateways_pages := .ok pagesFix }

/-- Client with three listed gateways whose middle describe call fails. -/
def clientOneFail : Client :=
  { baseClient with
    list_gateways_pages := .ok [⟨some [⟨"arn-1"⟩, ⟨"arn-2"⟩, ⟨"arn-3"⟩]⟩]
    describe_gateway_information := fun arn =>
      if arn = "arn-2" then .error "denied"
      else .ok ⟨some ("name-" ++ arn), some ("id-" ++ arn), some "RUNNING", some "FILE_S3"⟩ }

/-- Twelve share ARNs: two batches, of ten and two. -/
def arns12 : List String :=
  ["a1", "a2", "a3", "a4", "a5", "a6", "a7", "a8", "a9", "a10", "a11", "a12"]

/-- Client whose SMB batch-describe endpoint fails exactly on
full-size batches (so on the first of the two `arns12` batches). -/
def clientBatchFail : Client :=
  { baseClient with
    describe_smb_file_shares := fun batch =>
      if batch.length = 10 then .error "throttled" else .ok ⟨some [sdExample]⟩ }

/-- Client with one `FILE_S3` gateway that has no file shares. -/
def clientOneGw : Client :=
  { baseClient with
    list_gateways_pages := .ok [⟨some [⟨"arn-1"⟩]⟩]
    describe_gateway_information := fun _ =>
      .ok ⟨some "gw1", some "id1", some "RUNNING", some "FILE_S3"⟩
    list_file_shares_pages := fun _ => .ok [] }

/-- Client with two share-eligible gateways that share the `Name`
`"shared"` but have different IDs. -/
def clientDupName : Client :=
  { baseClient with
    list_gateways_pages := .ok [⟨some [⟨"arn-A"⟩, ⟨"arn-B"⟩]⟩]
    describe_gateway_information := fun arn =>
      if arn = "arn-A" then .ok ⟨some "shared", some "id-A", some "RUNNING", some "FILE_S3"⟩
      else .ok ⟨some "shared", some "id-B", some "RUNNING", some "FILE_FSX_SMB"⟩
    list_file_shares_pages := fun _ => .ok [] }

/-- Client with zero gateways. -/
def clientEmpty : Client := { baseClient with list_gateways_pages := .ok [] }

/-- The summary of `clientOneGw`'s single gateway. -/
def gwFix : GatewaySummary := ⟨"gw1", "id1", "RUNNING", "FILE_S3", "arn-1"⟩

/-! Helper lemmas about the batching, the describe loop and the report
dict. -/

theorem exists_ten_cons {α : Type} (xs : List α) (h : 10 ≤ xs.length) :
    ∃ (x1 x2 x3 x4 x5 x6 x7 x8 x9 x10 : α) (rest : List α),
      xs = x1 :: x2 :: x3 :: x4 :: x5 :: x6 :: x7 :: x8 :: x9 :: x10 :: rest := by
  rcases xs with _ | ⟨x1, _ | ⟨x2, _ | ⟨x3, _ | ⟨x4, _ | ⟨x5, _ | ⟨x6, _ | ⟨x7, _ |
    ⟨x8, _ | ⟨x9, _ | ⟨x10, rest⟩⟩⟩⟩⟩⟩⟩⟩⟩⟩
  all_goals first
    | exact ⟨x1, x2, x3, x4, x5, x6, x7, x8, x9, x10, rest, rfl⟩
    | simp at h

theorem chunks10_no_ten_short {α : Type} (xs : List α)
    (h2 : ∀ (x1 x2 x3 x4 x5 x6 x7 x8 x9 x10 : α) (rest : List α),
      xs = x1 :: x2 :: x3 :: x4 :: x5 :: x6 :: x7 :: x8 :: x9 :: x10 :: rest → False) :
    xs.length ≤ 9 := by
  by_contra hlen
  push_neg at hlen
  obtain ⟨x1, x2, x3, x4, x5, x6, x7, x8, x9, x10, rest, hx⟩ :=
    exists_ten_cons xs (by omega)
  exact h2 x1 x2 x3 x4 x5 x6 x7 x8 x9 x10 rest hx

theorem chunks10_flatten {α : Type} (xs : List α) : (chunks10 xs).flatten = xs := by
  induction xs using chunks10.induct <;> simp_all [chunks10]

theorem chunks10_length {α : Type} (xs : List α) :
    (chunks10 xs).length = (xs.length + 9) / 10 := by
  induction xs using chunks10.induct with
  | case1 => simp [chunks10]
  | case2 x1 x2 x3 x4 x5 x6 x7 x8 x9 x10 rest ih =>
    simp only [chunks10, List.length_cons, ih]
    omega
  | case3 xs h1 h2 =>
    have h9 := chunks10_no_ten_short xs h2
    have hpos : 0 < xs.length :=
      List.length_pos.mpr (fun hx => h1 hx)
    rw [chunks10.eq_3 xs h1 h2]
    simp only [List.length_cons, List.length_nil]
    omega

theorem chunks10_mem_length {α : Type} (xs : List α) (b : List α)
    (hb : b ∈ chunks10 xs) : b.length ≤ 10 := by
  induction xs using chunks10.induct with
  | case1 => simp [chunks10] at hb
  | case2 x1 x2 x3 x4 x5 x6 x7 x8 x9 x10 rest ih =>
    simp only [chunks10, List.mem_cons] at hb
    rcases hb with hb | hb
    · subst hb; simp
    · exact ih hb
  | case3 xs h1 h2 =>
    have h9 := chunks10_no_ten_short xs h2
    rw [chunks10.eq_3 xs h1 h2] at hb
    simp only [List.mem_singleton] at hb
    subst hb
    omega

theorem batchLoop_eq (c : Client) (share_type : String) (bs : List (List String)) :
    batchLoop c share_type bs
      = ((bs.map (fun b => (describeBatch c share_type b).1)).flatten,
         (bs.map (fun b => (describeBatch c share_type b).2)).flatten) := by
  induction bs with
  | nil => simp [batchLoop]
  | cons b bs ih => simp [batchLoop, ih]

theorem flatten_eq_nil_of_forall {α β : Type} (l : List α) (f : α → List β)
    (h : ∀ x ∈ l, f x = []) : (l.map f).flatten = [] := by
  induction l with
  | nil => simp
  | cons x l ih =>
    simp only [List.map_cons, List.flatten_cons, h x (by simp)]
    exact ih (fun y hy => h y (by simp [hy]))

theorem map_update_fst (m : Report) (k : String) (v : ReportEntry) :
    (m.map (fun p => if p.1 = k then (k, v) else p)).map Prod.fst
      = m.map Prod.fst := by
  induction m with
  | nil => rfl
  | cons p m ih =>
    by_cases hp : p.1 = k
    · simp [hp, ih]
    · simp [hp, ih]

theorem dictSet_keys_mem (m : Report) (k : String) (v : ReportEntry)
    (h : m.any (fun p => p.1 = k) = true) :
    (dictSet m k v).map Prod.fst = m.map Prod.fst := by
  have hm : dictSet m k v = m.map (fun p => if p.1 = k then (k, v) else p) := by
    simp [dictSet, h]
  rw [hm, map_update_fst]

theorem dictSet_keys_new (m : Report) (k : String) (v : ReportEntry)
    (h : m.any (fun p => p.1 = k) = false) :
    (dictSet m k v).map Prod.fst = m.map Prod.fst ++ [k] := by
  have hm : dictSet m k v = m ++ [(k, v)] := by
    simp [dictSet, h]
  rw [hm]
  simp

theorem dictSet_keys_subset (m : Report) (k k' : String) (v : ReportEntry)
    (h : k' ∈ (dictSet m k v).map Prod.fst) :
    k' ∈ m.map Prod.fst ∨ k' = k := by
  cases hany : m.any (fun p => p.1 = k) with
  | false =>
    rw [dictSet_keys_new m k v hany] at h
    simpa using h
  | true =>
    rw [dictSet_keys_mem m k v hany] at h
    exact Or.inl h

theorem dictSet_keys_nodup (m : Report) (k : String) (v : ReportEntry)
    (h : (m.map Prod.fst).Nodup) :
    ((dictSet m k v).map Prod.fst).Nodup := by
  cases hany : m.any (fun p => p.1 = k) with
  | false =>
    rw [dictSet_keys_new m k v hany]
    have hk : k ∉ m.map Prod.fst := by
      intro hkm
      obtain ⟨p, hp, hpk⟩ := List.exists_of_mem_map hkm
      have := List.any_eq_false.mp hany p hp
      simp [hpk] at this
    simp [List.nodup_append, h, hk]
  | true =>
    rw [dictSet_keys_mem m k v hany]
    exact h

theorem reportLoop_keys (c : Client) (gws : List GatewaySummary) :
    ∀ (report : Report) (k : String),
      k ∈ (reportLoop c report gws).1.map Prod.fst →
      k ∈ report.map Prod.fst
        ∨ ∃ gw ∈ gws, gw.Name = k ∧ gw.«Type» ∈ ["FILE_S3", "FILE_FSX_SMB"] := by
  induction gws with
  | nil =>
    intro report k hk
    simp only [reportLoop] at hk
    exact Or.inl hk
  | cons gw rest ih =>
    intro report k hk
    by_cases ht : gw.«Type» ∈ ["FILE_S3", "FILE_FSX_SMB"]
    · rcases hshares : (gatewayShares c gw).1 with _ | shares
      · simp only [reportLoop, if_pos ht, hshares] at hk
        rcases ih report k hk with h | ⟨g, hg, hgk⟩
        · exact Or.inl h
        · exact Or.inr ⟨g, by simp [hg], hgk⟩
      · simp only [reportLoop, if_pos ht, hshares] at hk
        rcases ih _ k hk with h | ⟨g, hg, hgk⟩
        · rcases dictSet_keys_subset report gw.Name k ⟨gw.ID, shares⟩ h with h' | h'
          · exact Or.inl h'
          · exact Or.inr ⟨gw, by simp, h'.symm, ht⟩
        · exact Or.inr ⟨g, by simp [hg], hgk⟩
    · simp only [reportLoop, if_neg ht] at hk
      rcases ih report k hk with h | ⟨g, hg, hgk⟩
      · exact Or.inl h
      · exact Or.inr ⟨g, by simp [hg], hgk⟩

theorem reportLoop_keys_nodup (c : Client) (gws : List GatewaySummary) :
    ∀ (report : Report), (report.map Prod.fst).Nodup →
      ((reportLoop c report gws).1.map Prod.fst).Nodup := by
  induction gws with
  | nil =>
    intro report h
    simpa only [reportLoop] using h
  | cons gw rest ih =>
    intro report h
    by_cases ht : gw.«Type» ∈ ["FILE_S3", "FILE_FSX_SMB"]
    · rcases hshares : (gatewayShares c gw).1 with _ | shares
      · simp only [reportLoop, if_pos ht, hshares]
        exact ih report h
      · simp only [reportLoop, if_pos ht, hshares]
        exact ih _ (dictSet_keys_nodup report gw.Name ⟨gw.ID, shares⟩ h)
    · simp only [reportLoop, if_neg ht]
      exact ih report h

/-! Claim theorems. -/

/-- C1: for every SMB share record returned by the batch-describe step,
the exported record has `AD_AllowedUsers` equal to the share's
`ValidUserList` unchanged and `AD_AllowedGroups` equal to exactly the
`'@'`-prefixed entries of `ValidUserList` in original order; every
record list produced by the export loop is built through these record
constructors; and the spec's example `ValidUserList` yields
`["alice", "@engineering", "bob"]` and `["@engineering"]`. -/
theorem C1_smb_record_fields :
    (∀ share : ShareDetail,
      (smbRecordOf share).AD_AllowedUsers = share.ValidUserList.getD []
      ∧ (smbRecordOf share).AD_AllowedGroups
          = (share.ValidUserList.getD []).filter startswith_at)
    ∧ (∀ (c : Client) (gw : GatewaySummary) (recs : List ShareRecord),
        (gatewayShares c gw).1 = some recs →
        ∃ nfsd smbd : List ShareDetail,
          recs = nfsd.map (fun s => ShareRecord.nfs (nfsRecordOf s))
                 ++ smbd.map (fun s => ShareRecord.smb (smbRecordOf s)))
    ∧ (smbRecordOf sdExample).AD_AllowedUsers = ["alice", "@engineering", "bob"]
    ∧ (smbRecordOf sdExample).AD_AllowedGroups = ["@engineering"] := by
  refine ⟨fun share => ⟨rfl, rfl⟩, ?_, by decide, by decide⟩
  intro c gw recs h
  rcases hp : c.list_file_shares_pages gw.ARN with e | pages
  · simp [gatewayShares, hp] at h
  · simp only [gatewayShares, hp] at h
    exact ⟨_, _, (Option.some.injEq _ _ ▸ h).symm⟩

/-- C1 witness: the theorem instantiated on the spec's example share and
on the concrete one-gateway client. -/
theorem C1_witness :
    (smbRecordOf sdExample).AD_AllowedGroups = ["@engineering"]
    ∧ ∃ nfsd smbd : List ShareDetail,
        ([] : List ShareRecord)
          = nfsd.map (fun s => ShareRecord.nfs (nfsRecordOf s))
            ++ smbd.map (fun s => ShareRecord.smb (smbRecordOf s)) :=
  ⟨C1_smb_record_fields.2.2.2,
   C1_smb_record_fields.2.1 clientOneGw gwFix [] (by decide)⟩

/-- C2: the batch step partitions the N share ARNs into ceil(N/10)
consecutive batches of size at most 10, covering every ARN exactly once
in input order, and `_get_share_details` issues exactly one describe
call per batch, concatenating the per-batch results in batch order. -/
theorem C2_batch_partition (share_arns : List String) :
    (chunks10 share_arns).length = (share_arns.length + 9) / 10
    ∧ (∀ b ∈ chunks10 share_arns, b.length ≤ 10)
    ∧ (chunks10 share_arns).flatten = share_arns
    ∧ ∀ (c : Client) (share_type : String),
        _get_share_details c share_arns share_type
          = (((chunks10 share_arns).map
                (fun b => (describeBatch c share_type b).1)).flatten,
             ((chunks10 share_arns).map
                (fun b => (describeBatch c share_type b).2)).flatten) := by
  refine ⟨chunks10_length share_arns,
    fun b hb => chunks10_mem_length share_arns b hb,
    chunks10_flatten share_arns,
    fun c share_type => ?_⟩
  simpa [_get_share_details] using batchLoop_eq c share_type (chunks10 share_arns)

/-- C2 witness: twelve ARNs give two batches; the second batch is a
member and has size at most 10. -/
theorem C2_witness :
    (chunks10 arns12).length = (arns12.length + 9) / 10
    ∧ (["a11", "a12"] : List String).length ≤ 10 :=
  ⟨(C2_batch_partition arns12).1,
   (C2_batch_partition arns12).2.1 ["a11", "a12"] (by decide)⟩

/-- C3: when the paginator yields its pages without error,
`list_all_gateways` returns exactly the concatenation of each page's
`Gateways` items in page order. -/
theorem C3_page_concat (c : Client) (pages : List GatewayListPage)
    (h : c.list_gateways_pages = .ok pages) :
    (list_all_gateways c).1
      = (pages.map (fun page => page.Gateways.getD [])).flatten := by
  simp [list_all_gateways, h]

/-- C3 witness: the three-page fixture client. -/
theorem C3_witness :
    (list_all_gateways clientPages).1
      = (pagesFix.map (fun page => page.Gateways.getD [])).flatten :=
  C3_page_concat clientPages pagesFix rfl

/-- C5: on a `ClientError` during gateway listing, `list_all_gateways`
logs the error and returns the empty list (no exception is modelled:
the function is total). -/
theorem C5_listing_error (c : Client) (e : ClientError)
    (h : c.list_gateways_pages = .error e) :
    list_all_gateways c = ([], [LogMsg.errorFailedToListGateways e]) := by
  simp [list_all_gateways, h]

/-- C5 witness: the all-failing fixture client. -/
theorem C5_witness :
    list_all_gateways baseClient
      = ([], [LogMsg.errorFailedToListGateways "unused"]) :=
  C5_listing_error baseClient "unused" rfl

/-- C4: when the per-gateway describe call fails for exactly one of the
three listed gateway references, `get_detailed_status` returns exactly
the two summaries of the succeeding references, in order (the function
is total, so no exception reaches the caller). -/
theorem C4_one_failure_skipped (c : Client) (r1 r2 r3 : GatewayRef)
    (hl : (list_all_gateways c).1 = [r1, r2, r3])
    (hone : [r1, r2, r3].countP (fun r => !describeOk c r) = 1) :
    (get_detailed_status c).1.length = 2
    ∧ (get_detailed_status c).1.map (fun s => s.ARN)
        = ([r1, r2, r3].filter (fun r => describeOk c r)).map
            (fun r => r.GatewayARN) := by
  have hmain : (get_detailed_status c).1 = (describeLoop c [r1, r2, r3]).1 := by
    simp only [get_detailed_status]
    rw [hl]
  rcases hd1 : c.describe_gateway_information r1.GatewayARN with e1 | i1 <;>
    rcases hd2 : c.describe_gateway_information r2.GatewayARN with e2 | i2 <;>
    rcases hd3 : c.describe_gateway_information r3.GatewayARN with e3 | i3 <;>
    simp [describeOk, hd1, hd2, hd3] at hone ⊢ <;>
    simp [hmain, describeLoop, summaryOf, hd1, hd2, hd3, describeOk]

/-- C4 witness: three fixture gateways with the middle describe failing. -/
theorem C4_witness :
    (get_detailed_status clientOneFail).1.length = 2
    ∧ (get_detailed_status clientOneFail).1.map (fun s => s.ARN)
        = (([⟨"arn-1"⟩, ⟨"arn-2"⟩, ⟨"arn-3"⟩] : List GatewayRef).filter
            (fun r => describeOk clientOneFail r)).map (fun r => r.GatewayARN) :=
  C4_one_failure_skipped clientOneFail ⟨"arn-1"⟩ ⟨"arn-2"⟩ ⟨"arn-3"⟩
    (by decide) (by decide)

/-- C6: when exactly one batch's describe call fails with a
`ClientError` (and the others succeed, hence log nothing), the failure
is logged, only that batch's records are missing, and all records of
the other batches are returned in order; the function is total, so no
exception propagates. -/
theorem C6_batch_failure_skipped (c : Client) (share_type : String)
    (arns : List String) (pre post : List (List String)) (bad : List String)
    (e : ClientError)
    (hsplit : chunks10 arns = pre ++ bad :: post)
    (hbad : describeBatch c share_type bad
      = ([], [LogMsg.errorFailedToDescribeShares share_type e]))
    (hok : ∀ b ∈ pre ++ post, (describeBatch c share_type b).2 = []) :
    (_get_share_details c arns share_type).1
      = (pre.map (fun b => (describeBatch c share_type b).1)).flatten
        ++ (post.map (fun b => (describeBatch c share_type b).1)).flatten
    ∧ (_get_share_details c arns share_type).2
      = [LogMsg.errorFailedToDescribeShares share_type e] := by
  have hpre : ((pre.map (fun b => (describeBatch c share_type b).2)).flatten) = [] :=
    flatten_eq_nil_of_forall pre _ (fun b hb => hok b (List.mem_append_left _ hb))
  have hpost : ((post.map (fun b => (describeBatch c share_type b).2)).flatten) = [] :=
    flatten_eq_nil_of_forall post _ (fun b hb => hok b (List.mem_append_right _ hb))
  have h := batchLoop_eq c share_type (chunks10 arns)
  rw [hsplit] at h
  have hdef : _get_share_details c arns share_type
      = batchLoop c share_type (chunks10 arns) := rfl
  rw [hdef, hsplit, h]
  constructor
  · simp [hbad]
  · simp [hbad, hpre, hpost]

/-- C6 witness: twelve ARNs, the full-size first batch failing and the
final two-element batch succeeding. -/
theorem C6_witness :
    (_get_share_details clientBatchFail arns12 "SMB").1
      = (([] : List (List String)).map
          (fun b => (describeBatch clientBatchFail "SMB" b).1)).flatten
        ++ ([["a11", "a12"]].map
          (fun b => (describeBatch clientBatchFail "SMB" b).1)).flatten
    ∧ (_get_share_details clientBatchFail arns12 "SMB").2
      = [LogMsg.errorFailedToDescribeShares "SMB" "throttled"] :=
  C6_batch_failure_skipped clientBatchFail "SMB" arns12 []
    [["a11", "a12"]] ["a1", "a2", "a3", "a4", "a5", "a6", "a7", "a8", "a9", "a10"]
    "throttled" (by decide) (by decide) (by decide)

/-- C7 counterexample: with a client reporting zero gateways and an
unopenable output file, `export_shares_to_json` aborts with the I/O
error while its log output is empty -- so the I/O failure is not
logged, contrary to the claim (the `with open` at line 117 sits outside
every `try`). -/
theorem C7_counterexample :
    (export_shares_to_json clientEmpty (fun _ => false) "gateway_shares.json").2
      = Except.error ()
    ∧ (export_shares_to_json clientEmpty (fun _ => false) "gateway_shares.json").1
      = [] :=
  ⟨rfl, rfl⟩

/-- C7 amended: if the output file cannot be opened for writing,
`export_shares_to_json` aborts with the I/O error propagating to the
caller, nothing is written, and the log output is exactly the logs of
the share-gathering phase -- the I/O failure itself is not logged. -/
theorem C7_io_error_aborts (c : Client) (canOpen : String → Bool)
    (filename : String) (h : canOpen filename = false) :
    export_shares_to_json c canOpen filename
      = ((gatherPhase c).2, Except.error ()) := by
  simp [export_shares_to_json, h]

/-- C7 witness: the zero-gateway client with an unopenable file. -/
theorem C7_witness :
    export_shares_to_json clientEmpty (fun _ => false) "gateway_shares.json"
      = ((gatherPhase clientEmpty).2, Except.error ()) :=
  C7_io_error_aborts clientEmpty (fun _ => false) "gateway_shares.json" rfl

/-- C8: when zero gateways are reported, the export writes the empty
mapping to the given file. -/
theorem C8_zero_gateways_empty_map (c : Client) (canOpen : String → Bool)
    (filename : String) (hg : (list_all_gateways c).1 = [])
    (hopen : canOpen filename = true) :
    (export_shares_to_json c canOpen filename).2 = Except.ok ([] : Report) := by
  have hr : (gatherPhase c).1 = [] := by
    simp [gatherPhase, get_detailed_status, hg, describeLoop, reportLoop]
  simp [export_shares_to_json, hopen, hr]

/-- C8 witness: the zero-gateway client with a writable file. -/
theorem C8_witness :
    (export_shares_to_json clientEmpty (fun _ => true) "gateway_shares.json").2
      = Except.ok ([] : Report) :=
  C8_zero_gateways_empty_map clientEmpty (fun _ => true) "gateway_shares.json"
    (by decide) rfl

/-- C9: every key of the written report is the `Name` of a gateway
observed in the current run whose `Type` is in the shareable-type set
`["FILE_S3", "FILE_FSX_SMB"]`; each key holds exactly one entry; and
what is serialized is exactly the report as assembled by the gathering
phase. -/
theorem C9_report_key_invariant (c : Client) (canOpen : String → Bool)
    (filename : String) (r : Report)
    (hw : (export_shares_to_json c canOpen filename).2 = Except.ok r) :
    (∀ k ∈ r.map Prod.fst,
      ∃ gw ∈ (get_detailed_status c).1,
        gw.Name = k ∧ gw.«Type» ∈ ["FILE_S3", "FILE_FSX_SMB"])
    ∧ (r.map Prod.fst).Nodup
    ∧ r = (gatherPhase c).1 := by
  have hr : r = (gatherPhase c).1 := by
    cases hco : canOpen filename with
    | false => simp [export_shares_to_json, hco] at hw
    | true =>
      simp [export_shares_to_json, hco] at hw
      exact hw.symm
  have hgp : (gatherPhase c).1 = (reportLoop c [] (get_detailed_status c).1).1 := rfl
  refine ⟨?_, ?_, hr⟩
  · intro k hk
    rw [hr, hgp] at hk
    rcases reportLoop_keys c (get_detailed_status c).1 [] k hk with h | h
    · simp at h
    · exact h
  · rw [hr, hgp]
    exact reportLoop_keys_nodup c (get_detailed_status c).1 [] (by simp)

/-- C9 witness: the one-gateway client writes one entry, keyed by the
observed gateway's name with a shareable type. -/
theorem C9_witness :
    ∃ gw ∈ (get_detailed_status clientOneGw).1,
      gw.Name = "gw1" ∧ gw.«Type» ∈ ["FILE_S3", "FILE_FSX_SMB"] :=
  (C9_report_key_invariant clientOneGw (fun _ => true) "gateway_shares.json"
      [("gw1", ⟨"id1", []⟩)] (by exact rfl)).1 "gw1" (by decide)

/-- C10: when two share-eligible gateways in the same run carry the same
`Name` (and both share-listing phases succeed), the final report holds
exactly one entry under that name -- the one assembled for the gateway
enumerated later -- so the earlier gateway's `GatewayID` and shares are
absent from the output. -/
theorem C10_duplicate_name_overwrite (c : Client) (g1 g2 : GatewaySummary)
    (s1 s2 : List ShareRecord)
    (hg : (get_detailed_status c).1 = [g1, g2])
    (hname : g1.Name = g2.Name)
    (ht1 : g1.«Type» ∈ ["FILE_S3", "FILE_FSX_SMB"])
    (ht2 : g2.«Type» ∈ ["FILE_S3", "FILE_FSX_SMB"])
    (h1 : (gatewayShares c g1).1 = some s1)
    (h2 : (gatewayShares c g2).1 = some s2) :
    (gatherPhase c).1 = [(g2.Name, ⟨g2.ID, s2⟩)] := by
  have hgp : (gatherPhase c).1 = (reportLoop c [] (get_detailed_status c).1).1 := rfl
  rw [hgp, hg]
  simp only [reportLoop, if_pos ht1, if_pos ht2, h1, h2]
  simp [dictSet, hname]

/-- C10 witness: the duplicate-name fixture client: only the second
gateway's ID survives under the shared name. -/
theorem C10_witness :
    (gatherPhase clientDupName).1 = [("shared", ⟨"id-B", []⟩)] :=
  C10_duplicate_name_overwrite clientDupName
    ⟨"shared", "id-A", "RUNNING", "FILE_S3", "arn-A"⟩
    ⟨"shared", "id-B", "RUNNING", "FILE_FSX_SMB", "arn-B"⟩
    [] [] (by decide) rfl (by decide) (by decide) (by exact rfl) (by exact rfl)
